import Mathlib

/-!
Shallow embedding of `stanford_quadruped_controller/controller.py`
(the `Controller` class: its transition tables, `step_gait`, and `run`).

Real-valued quantities are modelled by `ℚ`.  The collaborators that the
controller calls but that are external to this module — the gait schedule
(`gait_controller`), the stance and swing planners, the `transforms3d`
functions `euler2mat` / `quat2euler`, and the injected `inverse_kinematics`
function — are bundled into a parameter structure `Ext`.

Python mutates `state` in place; here `run` returns the new
`(smoothed_yaw, state)` pair.  A missing transition-table entry raises an
uncaught `KeyError` in Python; that is modelled by `run` returning
`Except.error` carrying the `(smoothed_yaw, state)` pair exactly as it
stands when the lookup fails (the lookup is the first statement of `run`,
before any assignment).
-/

namespace StanfordQuadruped

inductive BehaviorState where
  | DEACTIVATED
  | REST
  | TROT
  | HOP
  | FINISHHOP
deriving DecidableEq

open BehaviorState

/-- `command.Command`: three edge-triggered events plus continuous fields. -/
structure Command where
  activate_event : Bool
  trot_event : Bool
  hop_event : Bool
  roll : ℚ
  pitch : ℚ
  yaw_rate : ℚ
  height : ℚ
deriving DecidableEq

/-- `state.State`: the persistent controller state mutated each tick.
`joint_angles` is opaque output of inverse kinematics; it is modelled with
the same 3x4 matrix shape the pupper IK produces.  `quat_orientation` is a
quaternion (w, x, y, z). -/
structure State where
  behavior_state : BehaviorState
  ticks : ℕ
  foot_locations : Matrix (Fin 3) (Fin 4) ℚ
  joint_angles : Matrix (Fin 3) (Fin 4) ℚ
  quat_orientation : ℚ × ℚ × ℚ × ℚ
  pitch : ℚ
  roll : ℚ
  height : ℚ
deriving DecidableEq

/-- `config.Configuration`: the immutable configuration fields read by the
controller. -/
structure Configuration where
  dt : ℚ
  swing_ticks : ℚ
  max_yaw_rate : ℚ
  max_stance_yaw : ℚ
  max_stance_yaw_rate : ℚ
  yaw_time_constant : ℚ
  default_stance : Matrix (Fin 3) (Fin 4) ℚ

/-- The external collaborators consumed by the controller (spec section 6):
gait schedule, stance planner, swing planner, the `transforms3d` Euler/
quaternion conversions, and the injected inverse-kinematics function. -/
structure Ext where
  contacts : ℕ → Fin 4 → ℚ
  subphase_ticks : ℕ → ℚ
  stance_next_foot_location : Fin 4 → State → Command → (Fin 3 → ℚ)
  swing_next_foot_location : ℚ → Fin 4 → State → Command → (Fin 3 → ℚ)
  euler2mat : ℚ → ℚ → ℚ → Matrix (Fin 3) (Fin 3) ℚ
  quat2euler : ℚ × ℚ × ℚ × ℚ → ℚ × ℚ × ℚ
  inverse_kinematics : Matrix (Fin 3) (Fin 4) ℚ → Configuration → Matrix (Fin 3) (Fin 4) ℚ

/-- `np.clip(x, lo, hi)`. -/
def clip (x lo hi : ℚ) : ℚ := min (max x lo) hi

/-- Modelled from the spec: `utilities.clipped_first_order_filter` is not
under `src/`; section 4.4 describes it as a first-order filter driving the
value toward the target, with the rate limited to `max_rate` and time
constant `tau`. -/
def clipped_first_order_filter (x target max_rate tau : ℚ) : ℚ :=
  clip ((target - x) / tau) (-max_rate) max_rate

/-- `self.activate_transition_mapping` (controller.py lines 50-53): a Python
dict; `none` models a key with no entry (lookup raises `KeyError`). -/
def activate_transition_mapping : BehaviorState → Option BehaviorState
  | DEACTIVATED => some REST
  | REST => some DEACTIVATED
  | _ => none

/-- `self.trot_transition_mapping` (controller.py lines 44-49). -/
def trot_transition_mapping : BehaviorState → Option BehaviorState
  | REST => some TROT
  | TROT => some REST
  | HOP => some TROT
  | FINISHHOP => some TROT
  | _ => none

/-- `self.hop_transition_mapping` (controller.py lines 38-43). -/
def hop_transition_mapping : BehaviorState → Option BehaviorState
  | REST => some HOP
  | HOP => some FINISHHOP
  | FINISHHOP => some REST
  | TROT => some HOP
  | _ => none

/-- The `if ... elif ... elif` event-resolution chain of `run`
(controller.py lines 95-102).  When no event fires the behavior state is
left unchanged (no assignment happens in Python). -/
def resolvedBehavior (st : State) (cmd : Command) : Option BehaviorState :=
  if cmd.activate_event then activate_transition_mapping st.behavior_state
  else if cmd.trot_event then trot_transition_mapping st.behavior_state
  else if cmd.hop_event then hop_transition_mapping st.behavior_state
  else some st.behavior_state

/-- numpy broadcast `m + v[:, np.newaxis]`: add a column 3-vector to every
column of a 3x4 matrix. -/
def broadcastAdd (m : Matrix (Fin 3) (Fin 4) ℚ) (v : Fin 3 → ℚ) :
    Matrix (Fin 3) (Fin 4) ℚ :=
  Matrix.of fun i j => m i j + v i

/-- `Controller.step_gait` (controller.py lines 55-83): per leg, route to
the stance planner when the gait schedule's contact flag is 1, otherwise to
the swing planner with `swing_proportion = subphase_ticks / swing_ticks`;
assemble the four results column-wise.  Returns the new foot-location
matrix together with the contact flags, as the Python function does. -/
def step_gait (ext : Ext) (cfg : Configuration) (st : State) (cmd : Command) :
    Matrix (Fin 3) (Fin 4) ℚ × (Fin 4 → ℚ) :=
  let contact_modes := ext.contacts st.ticks
  let new_foot_locations : Matrix (Fin 3) (Fin 4) ℚ :=
    Matrix.of fun i leg_index =>
      if contact_modes leg_index = 1 then
        ext.stance_next_foot_location leg_index st cmd i
      else
        ext.swing_next_foot_location
          (ext.subphase_ticks st.ticks / cfg.swing_ticks) leg_index st cmd i
  (new_foot_locations, contact_modes)

/-- `correction_factor` local of `run` (controller.py line 114). -/
def correction_factor : ℚ := 0.8

/-- `max_tilt` local of `run` (controller.py line 115). -/
def max_tilt : ℚ := 0.4

/-- The unconditional tail of `run` (controller.py lines 164-167). -/
def tailUpdate (st : State) (cmd : Command) : State :=
  { st with
    ticks := st.ticks + 1
    pitch := cmd.pitch
    roll := cmd.roll
    height := cmd.height }

/-- The mode dispatch of `run` (controller.py lines 104-162) followed by
the unconditional tail, acting on a state whose `behavior_state` has
already been resolved.  Mirrors the Python `if/elif` chain comparing
`state.behavior_state` against each mode. -/
def runCore (ext : Ext) (cfg : Configuration) (smoothed_yaw : ℚ) (st : State)
    (cmd : Command) : ℚ × State :=
  let out : ℚ × State :=
    if st.behavior_state = TROT then
      let sg := step_gait ext cfg st cmd
      let st2 := { st with foot_locations := sg.1 }
      let rotated_foot_locations :=
        ext.euler2mat cmd.roll cmd.pitch 0 * st2.foot_locations
      let rpy := ext.quat2euler st2.quat_orientation
      let roll_compensation := correction_factor * clip rpy.1 (-max_tilt) max_tilt
      let pitch_compensation :=
        correction_factor * clip rpy.2.1 (-max_tilt) max_tilt
      let rmat := ext.euler2mat roll_compensation pitch_compensation 0
      let rotated2 := rmat.transpose * rotated_foot_locations
      (smoothed_yaw,
        { st2 with joint_angles := ext.inverse_kinematics rotated2 cfg })
    else if st.behavior_state = HOP then
      let fl := broadcastAdd cfg.default_stance ![0, 0, -0.09]
      (smoothed_yaw,
        { st with foot_locations := fl
                  joint_angles := ext.inverse_kinematics fl cfg })
    else if st.behavior_state = FINISHHOP then
      let fl := broadcastAdd cfg.default_stance ![0, 0, -0.22]
      (smoothed_yaw,
        { st with foot_locations := fl
                  joint_angles := ext.inverse_kinematics fl cfg })
    else if st.behavior_state = REST then
      let yaw_proportion := cmd.yaw_rate / cfg.max_yaw_rate
      let sy2 := smoothed_yaw + cfg.dt * clipped_first_order_filter
        smoothed_yaw (yaw_proportion * -cfg.max_stance_yaw)
        cfg.max_stance_yaw_rate cfg.yaw_time_constant
      let fl := broadcastAdd cfg.default_stance ![0, 0, cmd.height]
      let rotated := ext.euler2mat cmd.roll cmd.pitch sy2 * fl
      (sy2,
        { st with foot_locations := fl
                  joint_angles := ext.inverse_kinematics rotated cfg })
    else (smoothed_yaw, st)
  (out.1, tailUpdate out.2 cmd)

/-- `Controller.run` (controller.py lines 85-167).  `Except.error` models
the uncaught `KeyError` raised by a transition-table lookup with no entry;
its payload is the `(smoothed_yaw, state)` pair at the moment the exception
escapes, which is before any mutation because the lookup is evaluated
before its result is assigned. -/
def run (ext : Ext) (cfg : Configuration) (smoothed_yaw : ℚ) (st : State)
    (cmd : Command) : Except (ℚ × State) (ℚ × State) :=
  match resolvedBehavior st cmd with
  | none => .error (smoothed_yaw, st)
  | some bs => .ok (runCore ext cfg smoothed_yaw { st with behavior_state := bs } cmd)

/-! ## Concrete demonstration instances

Concrete collaborators, configuration, states and commands used to
instantiate the general theorems on executable inputs. -/

def defaultStanceDemo : Matrix (Fin 3) (Fin 4) ℚ :=
  !![1, 1, -1, -1; 1/2, -1/2, 1/2, -1/2; 0, 0, 0, 0]

def cfgDemo : Configuration :=
  { dt := 1/100
    swing_ticks := 8
    max_yaw_rate := 1
    max_stance_yaw := 1/2
    max_stance_yaw_rate := 1
    yaw_time_constant := 1/5
    default_stance := defaultStanceDemo }

def extDemo : Ext :=
  { contacts := fun _ leg => if leg.val % 3 = 0 then 1 else 0
    subphase_ticks := fun t => (t : ℚ)
    stance_next_foot_location := fun leg st _ i => st.foot_locations i leg
    swing_next_foot_location := fun prop leg st _ i => st.foot_locations i leg + prop
    euler2mat := fun r p y => !![1, 0, 0; 0, 1, 0; r + y, p, 1]
    quat2euler := fun q => (q.2.1, q.2.2.1, q.2.2.2)
    inverse_kinematics := fun m _ => m }

def cmdNone : Command :=
  { activate_event := false
    trot_event := false
    hop_event := false
    roll := 0
    pitch := 0
    yaw_rate := 0
    height := -0.16 }

def cmdActivate : Command := { cmdNone with activate_event := true }

def cmdHop : Command := { cmdNone with hop_event := true }

def cmdTrot : Command := { cmdNone with trot_event := true }

def stDemoTrot : State :=
  { behavior_state := TROT
    ticks := 3
    foot_locations := defaultStanceDemo
    joint_angles := 0
    quat_orientation := (1, 0, 0, 0)
    pitch := 0
    roll := 0
    height := -0.16 }

def stDemoRest : State := { stDemoTrot with behavior_state := REST }

def stDemoHop : State := { stDemoTrot with behavior_state := HOP }

def stDemoDeact : State := { stDemoTrot with behavior_state := DEACTIVATED }

/-! ## Specification-side transition function

Written from the specification's words (sections 4.1 and 8), for the
refinement statement of the behavior state machine: the three tables, the
strict activate > trot > hop priority, identity when no event fires, and
no successor when the winning event's table has no entry. -/

/-- The next behavior state exactly as the specification's transition
tables state it. -/
def specNextBehavior (s : BehaviorState) (activate trot hop : Bool) :
    Option BehaviorState :=
  if activate then
    match s with
    | DEACTIVATED => some REST
    | REST => some DEACTIVATED
    | _ => none
  else if trot then
    match s with
    | REST => some TROT
    | TROT => some REST
    | HOP => some TROT
    | FINISHHOP => some TROT
    | _ => none
  else if hop then
    match s with
    | REST => some HOP
    | HOP => some FINISHHOP
    | FINISHHOP => some REST
    | TROT => some HOP
    | _ => none
  else some s

/-! ## Instances exhibiting cancelling rotations and the missing
orientation guard -/

/-- An orthogonal non-identity rotation matrix (rotation by 90 degrees
about z), used to exhibit cancelling rotations. -/
def Rort : Matrix (Fin 3) (Fin 3) ℚ := !![0, -1, 0; 1, 0, 0; 0, 0, 1]

/-- External collaborators for the C10 counterexample: `euler2mat` sends
the zero angle triple to the identity and every other triple to the
orthogonal rotation `Rort` (the real `euler2mat` likewise sends equal
angle triples to equal rotations), the measured orientation decomposes to
roll 2/5, and inverse kinematics is the identity function so that the
joint angles expose the matrix passed to it. -/
def extC10 : Ext :=
  { extDemo with
    euler2mat := fun r p y => if r = 0 ∧ p = 0 ∧ y = 0 then 1 else Rort
    quat2euler := fun _ => (2/5, 0, 0) }

/-- A command with a nonzero commanded roll and no event. -/
def cmdTilt : Command := { cmdNone with roll := 1/2 }

/-- External collaborators for C8: `quat2euler` decomposes the identity
quaternion `(1, 0, 0, 0)` to zero angles and the invalid zero quaternion
to roll 1/4, and inverse kinematics is the identity function so the joint
angles expose the matrix passed to it. -/
def extC8 : Ext :=
  { extDemo with
    euler2mat := fun r p y => if r = 0 ∧ p = 0 ∧ y = 0 then 1 else Rort
    quat2euler := fun q => ((1 - q.1) / 4, 0, 0) }

/-- A TROT state whose measured quaternion is the all-zero (non-unit,
numerically invalid) quaternion. -/
def stC8bad : State := { stDemoTrot with quat_orientation := (0, 0, 0, 0) }

/-! ## Claims -/

/-- Evaluation of `runCore` on a state already resolved to TROT: the
stored foot locations are the `step_gait` output and the joint angles are
the inverse kinematics of the doubly rotated copy. -/
theorem runCore_trot (ext : Ext) (cfg : Configuration) (sy : ℚ) (st : State)
    (cmd : Command) (hst : st.behavior_state = TROT) :
    runCore ext cfg sy st cmd
      = (sy, tailUpdate
          { st with
            foot_locations := (step_gait ext cfg st cmd).1
            joint_angles := ext.inverse_kinematics
              ((ext.euler2mat
                  (correction_factor *
                    clip (ext.quat2euler st.quat_orientation).1 (-max_tilt) max_tilt)
                  (correction_factor *
                    clip (ext.quat2euler st.quat_orientation).2.1 (-max_tilt) max_tilt)
                  0).transpose
                * (ext.euler2mat cmd.roll cmd.pitch 0 * (step_gait ext cfg st cmd).1))
              cfg } cmd) := by
  unfold runCore
  rw [hst]
  rfl

/-- C1: for every state and event combination, the behavior state after
`run` is exactly what the specification's three transition tables give:
each table entry maps to its successor, only the highest-priority set
event (activate > trot > hop) is honored, and with no event set the
behavior state is unchanged (for all 5 states).  A `none` on both sides is
the case where the winning event's table has no entry. -/
theorem run_behavior_matches_spec_tables (ext : Ext) (cfg : Configuration)
    (sy : ℚ) (st : State) (cmd : Command) :
    (run ext cfg sy st cmd).toOption.map (fun o => o.2.behavior_state)
      = specNextBehavior st.behavior_state cmd.activate_event cmd.trot_event
          cmd.hop_event := by
  obtain ⟨bs, t, fl, ja, q, p, r, h⟩ := st
  obtain ⟨a, tr, hp, cr, cp, cy, ch⟩ := cmd
  cases a <;> cases tr <;> cases hp <;> cases bs <;> rfl

/-- C2: the code does NOT define a fallback for an event whose table has no
entry for the current state.  Concretely, `activate_event` while in TROT
makes the dict lookup fail: `run` aborts with the uncaught error (modelled
by `Except.error`) instead of producing a defined outcome. -/
theorem run_activate_in_trot_crashes :
    run extDemo cfgDemo 0 stDemoTrot cmdActivate = .error (0, stDemoTrot) := rfl

/-- C9: when the winning event's table has no entry for the current state,
the lookup fails before any mutation, so the error carries the
`(smoothed_yaw, state)` pair exactly as it was before the call: behavior
state, ticks, foot locations, joint angles, pitch, roll, height and
smoothed yaw all keep their pre-call values. -/
theorem lookup_failure_preserves_state (ext : Ext) (cfg : Configuration)
    (sy : ℚ) (st : State) (cmd : Command)
    (hbs : resolvedBehavior st cmd = none) :
    run ext cfg sy st cmd = .error (sy, st) := by
  unfold run
  rw [hbs]

/-- Witness for C9 at a concrete input: HOP with `activate_event` has no
entry in the activate table. -/
theorem lookup_failure_preserves_state_witness :
    resolvedBehavior stDemoHop cmdActivate = none ∧
      run extDemo cfgDemo 0 stDemoHop cmdActivate = .error (0, stDemoHop) :=
  ⟨by decide,
    lookup_failure_preserves_state extDemo cfgDemo 0 stDemoHop cmdActivate
      (by decide)⟩

/-- C4: `step_gait` takes each leg's new location from the stance planner
exactly when the gait schedule's contact flag for that leg at the current
tick equals 1, and otherwise from the swing planner called with
`swing_proportion = subphase_ticks / swing_ticks`; the four results are
assembled column-wise (entry `(i, leg)` of the 3x4 result is component `i`
of leg `leg`'s planned location), and the contact flags returned alongside
are exactly the schedule's. -/
theorem step_gait_routing (ext : Ext) (cfg : Configuration) (st : State)
    (cmd : Command) :
    (∀ (leg : Fin 4) (i : Fin 3),
      (step_gait ext cfg st cmd).1 i leg =
        if ext.contacts st.ticks leg = 1 then
          ext.stance_next_foot_location leg st cmd i
        else
          ext.swing_next_foot_location
            (ext.subphase_ticks st.ticks / cfg.swing_ticks) leg st cmd i) ∧
    (step_gait ext cfg st cmd).2 = ext.contacts st.ticks :=
  ⟨fun _ _ => rfl, rfl⟩

/-- C6: whenever `run` completes (every mode, DEACTIVATED included),
`ticks` increases by exactly 1 and `pitch`, `roll`, `height` are set to
the command's values. -/
theorem run_tail_updates (ext : Ext) (cfg : Configuration) (sy : ℚ)
    (st : State) (cmd : Command) (sy' : ℚ) (st' : State)
    (h : run ext cfg sy st cmd = .ok (sy', st')) :
    st'.ticks = st.ticks + 1 ∧ st'.pitch = cmd.pitch ∧ st'.roll = cmd.roll ∧
      st'.height = cmd.height := by
  unfold run at h
  rcases hres : resolvedBehavior st cmd with _ | bs <;> rw [hres] at h
  · exact Except.noConfusion h
  · have h2 : runCore ext cfg sy { st with behavior_state := bs } cmd
        = (sy', st') := by injection h
    have hst : st' = (runCore ext cfg sy { st with behavior_state := bs } cmd).2 := by
      rw [h2]
    subst hst
    unfold runCore tailUpdate
    split_ifs <;> exact ⟨rfl, rfl, rfl, rfl⟩

/-- Witness for C6 at a concrete input (DEACTIVATED mode, no event). -/
theorem run_tail_updates_witness :
    (tailUpdate stDemoDeact cmdNone).ticks = stDemoDeact.ticks + 1 ∧
    (tailUpdate stDemoDeact cmdNone).pitch = cmdNone.pitch ∧
    (tailUpdate stDemoDeact cmdNone).roll = cmdNone.roll ∧
    (tailUpdate stDemoDeact cmdNone).height = cmdNone.height :=
  run_tail_updates extDemo cfgDemo 0 stDemoDeact cmdNone 0
    (tailUpdate stDemoDeact cmdNone) (by rfl)

/-- C7: when the resolved behavior state is DEACTIVATED, `run` performs no
foot or joint update: `foot_locations`, `joint_angles` and the smoothed
yaw keep their pre-call values, and the result does not depend on the
injected inverse-kinematics function (it is never invoked). -/
theorem deactivated_frame (ext : Ext) (cfg : Configuration) (sy : ℚ)
    (st : State) (cmd : Command)
    (hbs : resolvedBehavior st cmd = some DEACTIVATED) :
    (run ext cfg sy st cmd).toOption.map
        (fun o => (o.1, o.2.foot_locations, o.2.joint_angles))
      = some (sy, st.foot_locations, st.joint_angles) ∧
    ∀ ik₁ ik₂ : Matrix (Fin 3) (Fin 4) ℚ → Configuration → Matrix (Fin 3) (Fin 4) ℚ,
      run { ext with inverse_kinematics := ik₁ } cfg sy st cmd
        = run { ext with inverse_kinematics := ik₂ } cfg sy st cmd := by
  constructor
  · unfold run
    rw [hbs]
    rfl
  · intro ik₁ ik₂
    unfold run
    rw [hbs]
    rfl

/-- Witness for C7 at a concrete input: REST with `activate_event`
transitions to DEACTIVATED and the tick leaves feet, joints and smoothed
yaw untouched. -/
theorem deactivated_frame_witness :
    resolvedBehavior stDemoRest cmdActivate = some DEACTIVATED ∧
    (run extDemo cfgDemo 0 stDemoRest cmdActivate).toOption.map
        (fun o => (o.1, o.2.foot_locations, o.2.joint_angles))
      = some (0, stDemoRest.foot_locations, stDemoRest.joint_angles) :=
  ⟨by decide,
    (deactivated_frame extDemo cfgDemo 0 stDemoRest cmdActivate (by decide)).1⟩

/-- C3: in TROT mode the joint angles are the inverse kinematics of the
foot locations rotated first by the commanded roll/pitch (yaw 0) and then
by the transpose of the compensation rotation, whose roll and pitch angles
are exactly `clip(measured, -0.4, 0.4) * 0.8` (independently for roll and
pitch, yaw term 0), the measured angles coming from the Euler
decomposition of `quat_orientation`. -/
theorem trot_tilt_compensation (ext : Ext) (cfg : Configuration) (sy : ℚ)
    (st : State) (cmd : Command)
    (hbs : resolvedBehavior st cmd = some TROT) :
    (run ext cfg sy st cmd).toOption.map (fun o => o.2.joint_angles)
      = some (ext.inverse_kinematics
          ((ext.euler2mat
              (clip (ext.quat2euler st.quat_orientation).1 (-0.4) 0.4 * 0.8)
              (clip (ext.quat2euler st.quat_orientation).2.1 (-0.4) 0.4 * 0.8)
              0).transpose
            * (ext.euler2mat cmd.roll cmd.pitch 0
              * (step_gait ext cfg { st with behavior_state := TROT } cmd).1))
          cfg) := by
  have h0 : (run ext cfg sy st cmd).toOption.map (fun o => o.2.joint_angles)
      = some (ext.inverse_kinematics
          ((ext.euler2mat
              (0.8 * clip (ext.quat2euler st.quat_orientation).1 (-0.4) 0.4)
              (0.8 * clip (ext.quat2euler st.quat_orientation).2.1 (-0.4) 0.4)
              0).transpose
            * (ext.euler2mat cmd.roll cmd.pitch 0
              * (step_gait ext cfg { st with behavior_state := TROT } cmd).1))
          cfg) := by
    unfold run
    rw [hbs]
    rfl
  rw [h0]
  simp only [mul_comm (0.8 : ℚ)]

/-- Witness for C3 at a concrete input (already in TROT, no event). -/
theorem trot_tilt_compensation_witness :
    resolvedBehavior stDemoTrot cmdNone = some TROT ∧
    (run extDemo cfgDemo 0 stDemoTrot cmdNone).toOption.map
        (fun o => o.2.joint_angles)
      = some (extDemo.inverse_kinematics
          ((extDemo.euler2mat
              (clip (extDemo.quat2euler stDemoTrot.quat_orientation).1 (-0.4) 0.4 * 0.8)
              (clip (extDemo.quat2euler stDemoTrot.quat_orientation).2.1 (-0.4) 0.4 * 0.8)
              0).transpose
            * (extDemo.euler2mat cmdNone.roll cmdNone.pitch 0
              * (step_gait extDemo cfgDemo
                  { stDemoTrot with behavior_state := TROT } cmdNone).1))
          cfgDemo) :=
  ⟨by decide, trot_tilt_compensation extDemo cfgDemo 0 stDemoTrot cmdNone (by decide)⟩

/-- C5: when the resolved behavior state is HOP the new foot locations are
`default_stance` with `(0, 0, -0.09)` added to every leg column, and when
it is FINISHHOP the offset is `(0, 0, -0.22)`; in both modes the joint
angles are the inverse kinematics of exactly that matrix. -/
theorem hop_and_finishhop_crouch (ext : Ext) (cfg : Configuration) (sy : ℚ)
    (st : State) (cmd : Command) (b : BehaviorState) (z : ℚ)
    (hb : (b = HOP ∧ z = -0.09) ∨ (b = FINISHHOP ∧ z = -0.22))
    (hbs : resolvedBehavior st cmd = some b) :
    (run ext cfg sy st cmd).toOption.map
        (fun o => (o.2.foot_locations, o.2.joint_angles))
      = some (broadcastAdd cfg.default_stance ![0, 0, z],
          ext.inverse_kinematics (broadcastAdd cfg.default_stance ![0, 0, z]) cfg) := by
  rcases hb with ⟨hb, hz⟩ | ⟨hb, hz⟩ <;> subst hb <;> subst hz <;>
    (unfold run; rw [hbs]; rfl)

/-- Witness for C5 at a concrete input: REST with `hop_event` transitions
to HOP and the crouch offset -0.09 is applied. -/
theorem hop_and_finishhop_crouch_witness :
    ((HOP = HOP ∧ (-0.09 : ℚ) = -0.09) ∨ (HOP = FINISHHOP ∧ (-0.09 : ℚ) = -0.22)) ∧
    resolvedBehavior stDemoRest cmdHop = some HOP ∧
    (run extDemo cfgDemo 0 stDemoRest cmdHop).toOption.map
        (fun o => (o.2.foot_locations, o.2.joint_angles))
      = some (broadcastAdd cfgDemo.default_stance ![0, 0, -0.09],
          extDemo.inverse_kinematics
            (broadcastAdd cfgDemo.default_stance ![0, 0, -0.09]) cfgDemo) :=
  ⟨Or.inl ⟨rfl, rfl⟩, by decide,
    hop_and_finishhop_crouch extDemo cfgDemo 0 stDemoRest cmdHop HOP (-0.09)
      (Or.inl ⟨rfl, rfl⟩) (by decide)⟩

/-- C10 (amended): in TROT mode the state stores the un-rotated
`step_gait` output as `foot_locations`, while `joint_angles` is the
inverse kinematics of a separately held copy rotated by the commanded
roll/pitch and then by the transpose of the tilt compensation; the rotated
matrix itself is discarded, never persisted.  The stored matrix therefore
differs from the one passed to inverse kinematics exactly when the
composed rotation moves the `step_gait` output. -/
theorem trot_stores_unrotated (ext : Ext) (cfg : Configuration) (sy : ℚ)
    (st : State) (cmd : Command)
    (hbs : resolvedBehavior st cmd = some TROT) :
    (run ext cfg sy st cmd).toOption.map
        (fun o => (o.2.foot_locations, o.2.joint_angles))
      = some ((step_gait ext cfg { st with behavior_state := TROT } cmd).1,
          ext.inverse_kinematics
            ((ext.euler2mat
                (0.8 * clip (ext.quat2euler st.quat_orientation).1 (-0.4) 0.4)
                (0.8 * clip (ext.quat2euler st.quat_orientation).2.1 (-0.4) 0.4)
                0).transpose
              * (ext.euler2mat cmd.roll cmd.pitch 0
                * (step_gait ext cfg { st with behavior_state := TROT } cmd).1))
            cfg) := by
  unfold run
  rw [hbs]
  rfl

/-- Witness for C10's amended theorem at a concrete input: REST with
`trot_event` transitions to TROT. -/
theorem trot_stores_unrotated_witness :
    resolvedBehavior stDemoRest cmdTrot = some TROT ∧
    (run extDemo cfgDemo (1/10) stDemoRest cmdTrot).toOption.map
        (fun o => (o.2.foot_locations, o.2.joint_angles))
      = some ((step_gait extDemo cfgDemo
            { stDemoRest with behavior_state := TROT } cmdTrot).1,
          extDemo.inverse_kinematics
            ((extDemo.euler2mat
                (0.8 * clip (extDemo.quat2euler stDemoRest.quat_orientation).1 (-0.4) 0.4)
                (0.8 * clip (extDemo.quat2euler stDemoRest.quat_orientation).2.1 (-0.4) 0.4)
                0).transpose
              * (extDemo.euler2mat cmdTrot.roll cmdTrot.pitch 0
                * (step_gait extDemo cfgDemo
                    { stDemoRest with behavior_state := TROT } cmdTrot).1))
            cfgDemo) :=
  ⟨by decide,
    trot_stores_unrotated extDemo cfgDemo (1/10) stDemoRest cmdTrot (by decide)⟩

/-- C10 counterexample: both the commanded rotation and the compensation
rotation are non-identity, yet the stored `foot_locations` equal the
matrix passed to inverse kinematics (exposed by an identity inverse
kinematics), because the transpose of the compensation cancels the
commanded rotation.  This refutes the claim's final clause that the two
matrices differ whenever either rotation is non-identity. -/
theorem rotations_cancel_counterexample :
    extC10.euler2mat cmdTilt.roll cmdTilt.pitch 0 ≠ 1 ∧
    extC10.euler2mat
        (0.8 * clip (extC10.quat2euler stDemoTrot.quat_orientation).1 (-0.4) 0.4)
        (0.8 * clip (extC10.quat2euler stDemoTrot.quat_orientation).2.1 (-0.4) 0.4)
        0 ≠ 1 ∧
    (run extC10 cfgDemo 0 stDemoTrot cmdTilt).toOption.map
        (fun o => o.2.foot_locations)
      = (run extC10 cfgDemo 0 stDemoTrot cmdTilt).toOption.map
          (fun o => o.2.joint_angles) := by
  have hR1 : Rort ≠ 1 := by
    intro h
    have h2 := congrFun (congrFun h 0) 0
    simp [Rort, Matrix.one_apply] at h2
  refine ⟨?_, ?_, ?_⟩
  · have e1 : extC10.euler2mat cmdTilt.roll cmdTilt.pitch 0 = Rort := by
      norm_num [extC10, extDemo, cmdTilt, cmdNone]
    rw [e1]
    exact hR1
  · have e2 : extC10.euler2mat
        (0.8 * clip (extC10.quat2euler stDemoTrot.quat_orientation).1 (-0.4) 0.4)
        (0.8 * clip (extC10.quat2euler stDemoTrot.quat_orientation).2.1 (-0.4) 0.4)
        0 = Rort := by
      norm_num [extC10, extDemo, stDemoTrot, clip, min_def, max_def]
    rw [e2]
    exact hR1
  · have hres : resolvedBehavior stDemoTrot cmdTilt = some TROT := by decide
    have hrun : run extC10 cfgDemo 0 stDemoTrot cmdTilt
        = .ok (runCore extC10 cfgDemo 0 stDemoTrot cmdTilt) := by
      unfold run
      rw [hres]
      rfl
    rw [hrun, runCore_trot extC10 cfgDemo 0 stDemoTrot cmdTilt rfl]
    simp only [Except.toOption, Option.map_some', Option.some.injEq, tailUpdate]
    ext i j
    fin_cases i <;> fin_cases j <;>
      norm_num [extC10, extDemo, stDemoTrot, cmdTilt, cmdNone, cfgDemo,
        defaultStanceDemo, step_gait, clip, correction_factor, max_tilt,
        min_def, max_def, Rort, Matrix.mul_apply, Fin.sum_univ_succ,
        Matrix.transpose_apply, Matrix.of_apply, Matrix.one_apply,
        Matrix.vecHead, Matrix.vecTail, Matrix.cons_val_zero,
        Matrix.cons_val_one, Matrix.head_cons, Fin.ext_iff]

/-- C8: the code performs NO validity guard on `quat_orientation`: the raw
quaternion is decomposed and its angles drive the tilt compensation, so a
run on a numerically invalid (zero, non-unit) quaternion hands inverse
kinematics a different matrix than the same run with the neutral identity
orientation — the claimed substitution of a neutral orientation does not
happen. -/
theorem quat_guard_missing :
    (run extC8 cfgDemo 0 stC8bad cmdNone).toOption.map (fun o => o.2.joint_angles)
      ≠ (run extC8 cfgDemo 0
            { stC8bad with quat_orientation := (1, 0, 0, 0) } cmdNone).toOption.map
          (fun o => o.2.joint_angles) := by
  have hres1 : resolvedBehavior stC8bad cmdNone = some TROT := by decide
  have hres2 : resolvedBehavior
      { stC8bad with quat_orientation := ((1 : ℚ), 0, 0, 0) } cmdNone
        = some TROT := by decide
  have hrun1 : run extC8 cfgDemo 0 stC8bad cmdNone
      = .ok (runCore extC8 cfgDemo 0 stC8bad cmdNone) := by
    unfold run
    rw [hres1]
    rfl
  have hrun2 : run extC8 cfgDemo 0
      { stC8bad with quat_orientation := ((1 : ℚ), 0, 0, 0) } cmdNone
        = .ok (runCore extC8 cfgDemo 0
            { stC8bad with quat_orientation := ((1 : ℚ), 0, 0, 0) } cmdNone) := by
    unfold run
    rw [hres2]
    rfl
  rw [hrun1, hrun2, runCore_trot extC8 cfgDemo 0 stC8bad cmdNone rfl,
    runCore_trot extC8 cfgDemo 0
      { stC8bad with quat_orientation := ((1 : ℚ), 0, 0, 0) } cmdNone rfl]
  simp only [Except.toOption, Option.map_some', Option.some.injEq, tailUpdate,
    ne_eq]
  intro h
  have h00 := congrFun (congrFun h 0) 0
  norm_num [extC8, extDemo, stC8bad, stDemoTrot, cmdNone, cfgDemo,
    defaultStanceDemo, step_gait, clip, correction_factor, max_tilt,
    min_def, max_def, Rort, Matrix.mul_apply, Fin.sum_univ_succ,
    Matrix.transpose_apply, Matrix.of_apply, Matrix.one_apply,
    Matrix.vecHead, Matrix.vecTail, Matrix.cons_val_zero,
    Matrix.cons_val_one, Matrix.head_cons, Fin.ext_iff] at h00

end StanfordQuadruped
